import Mathlib

/-!
Verification of the virtual-memory arena / slot-pool library (vmem).

The definitions below are a shallow embedding of the C sources:
* `vmem.h` v0.2 (`vmem_align_forward`, `vmem_partially_commit_region`,
  `vmem_arena_set_commited`, the cached page-size globals),
* `varena.h` (`varena_set_commited`),
* `vpool.h` (`vpool__set_commited_slots`, `vpool_alloc_slot`,
  `vpool_dealloc_slot`, `vpool_clear_and_decommit`),
* the typed C++ wrappers: `VArray` and the sample `VPool` template.

Modelling conventions:
* `size_t` / `uintptr_t` values are `Nat`; where 64-bit overflow is
  semantically relevant (the `(address + mask) & ~mask` computation of
  `vmem_align_forward_fast`, the `commited_slots * slot_size` product) the
  value is taken `% 2 ^ 64` explicitly, and the bitwise complement of
  `mask < 2 ^ 64` is written `2 ^ 64 - 1 - mask`.
* `uint32_t` slot indices wrap `% 2 ^ 32`; `VPOOL_SLOT_INDEX_INVALID`
  (`(uint32_t)-1`) is `2 ^ 32 - 1`; a 4-byte load from slot memory is
  reduced `% 2 ^ 32`.
* The OS virtual-memory provider is the spec's external collaborator; it is
  modelled as always succeeding, and every `vmem_commit` / `vmem_decommit`
  it receives is recorded in a trace of `VMemCall`s (offsets are relative to
  the arena/pool base pointer).
* The process-global cached page size is passed to each function as an
  explicit `page_size` argument; the global cell itself is modelled
  separately as `VMemGlobals`.
* C functions that report failure through `assert` / `VMEM_ON_ERROR` and an
  early `return` (the `varena` / `vpool` growth paths) return a `Bool` that
  is `false` exactly on that path.
-/

/-- One call issued to the OS virtual-memory provider.
`commit off n` / `decommit off n` commit or decommit `n` bytes starting
`off` bytes past the base pointer of the reservation. -/
inductive VMemCall where
  | commit (offset num_bytes : Nat)
  | decommit (offset num_bytes : Nat)
deriving DecidableEq, Repr

/-- C `vmem_align_forward_fast`:
`mask = align - 1; return (address + mask) & ~mask;` in `uintptr_t`
arithmetic. The sum is reduced `% 2 ^ 64` and `~mask` is `2 ^ 64 - 1 - mask`. -/
def vmem_align_forward_fast (address align : Nat) : Nat :=
  ((address + (align - 1)) % 2 ^ 64) &&& (2 ^ 64 - 1 - (align - 1))

/-- C `vmem_align_forward`: `VMEM_ERROR_IF` returns 0 when `align` is zero
or is not a power of two (`align & (align - 1) != 0`), otherwise defers to
`vmem_align_forward_fast`. -/
def vmem_align_forward (address align : Nat) : Nat :=
  if align = 0 then 0
  else if align &&& (align - 1) ≠ 0 then 0
  else vmem_align_forward_fast address align

/-- C struct `VMemArena` (vmem.h v0.2): base pointer (as an address),
total size/capacity, and the `commited` field. `commited` stores the raw
value passed to the last successful `vmem_arena_set_commited` (the logical
used length); the page-rounded number of OS-committed bytes is
`vmem_arena_calc_bytes_used_for_size` applied to it. -/
structure VMemArena where
  mem : Nat
  size_bytes : Nat
  commited : Nat
deriving DecidableEq, Repr

/-- C `vmem_arena_calc_bytes_used_for_size`:
`vmem_align_forward(size_bytes, vmem_get_page_size())`. The cached page
size is passed explicitly as `page_size`. -/
def vmem_arena_calc_bytes_used_for_size (page_size size_bytes : Nat) : Nat :=
  vmem_align_forward size_bytes page_size

/-- C `vmem_arena_init_alloc`: reserves `size_bytes` (base address `mem`
models the pointer returned by `vmem_alloc`) with nothing committed;
a zero size is rejected and yields the zeroed struct. -/
def vmem_arena_init_alloc (mem size_bytes : Nat) : VMemArena :=
  if size_bytes = 0 then ⟨0, 0, 0⟩ else ⟨mem, size_bytes, 0⟩

/-- C `vmem_partially_commit_region(ptr, num_bytes, prev_commited, commited)`
(vmem.h v0.2). Returns the `VMemResult` (`true` = `VMemResult_Success`)
together with the provider calls issued (offsets relative to `ptr`).
The order of the checks is the source's: the `commited == prev_commited`
short-circuit, then `VMEM_ERROR_IF(commited > num_bytes)`, then the
page-rounding comparison, then the shrink/expand syscall. -/
def vmem_partially_commit_region (page_size num_bytes prev_commited commited : Nat) :
    Bool × List VMemCall :=
  if commited = prev_commited then (true, [])
  else if commited > num_bytes then (false, [])
  else
    let new_commited_bytes := vmem_arena_calc_bytes_used_for_size page_size commited
    let current_commited_bytes := vmem_arena_calc_bytes_used_for_size page_size prev_commited
    if new_commited_bytes = current_commited_bytes then (true, [])
    else if new_commited_bytes < current_commited_bytes then
      (true, [VMemCall.decommit new_commited_bytes
        (current_commited_bytes - new_commited_bytes)])
    else
      (true, [VMemCall.commit 0 new_commited_bytes])

/-- C `vmem_arena_set_commited` (vmem.h v0.2): delegates to
`vmem_partially_commit_region` and stores the raw requested value in
`arena.commited` only on success. Returns
`(result, updated arena, provider calls)`. -/
def vmem_arena_set_commited (page_size : Nat) (arena : VMemArena) (commited : Nat) :
    Bool × VMemArena × List VMemCall :=
  let r := vmem_partially_commit_region page_size arena.size_bytes arena.commited commited
  if r.1 then (true, { arena with commited := commited }, r.2)
  else (false, arena, r.2)

/-- Folding a list of `vmem_arena_set_commited` requests over an arena,
keeping the (possibly unchanged) arena state after each call. -/
def vmem_arena_run (page_size : Nat) (arena : VMemArena) : List Nat → VMemArena
  | [] => arena
  | c :: rest => vmem_arena_run page_size (vmem_arena_set_commited page_size arena c).2.1 rest

/-- C struct `VArena` (varena.h): reserved buffer address, its length, the
`_commited` byte count (again the raw requested value) and the bump length
`len`. -/
structure VArena where
  _buf : Nat
  _buf_len : Nat
  _commited : Nat
  len : Nat
deriving DecidableEq, Repr

/-- C `varena_init`: reserve `max_bytes` (the base address `mem` models the
`vmem_alloc` result); nothing committed, nothing used. -/
def varena_init (mem max_bytes : Nat) : VArena :=
  ⟨mem, max_bytes, 0, 0⟩

/-- C `varena_calc_bytes_used_for_size`:
`vmem_align_forward(cap, vmem_get_page_size())`. -/
def varena_calc_bytes_used_for_size (page_size cap : Nat) : Nat :=
  vmem_align_forward cap page_size

/-- C `varena_set_commited` (varena.h). The C function is `void`; the `Bool`
is `false` exactly on the `VARENA_ASSERT(0 && "...")`-and-return path (the
expand branch with `commited >= arena->_buf_len`), on which the arena is
left unchanged. Every other path ends with `arena->_commited = commited`. -/
def varena_set_commited (page_size : Nat) (arena : VArena) (commited : Nat) :
    Bool × VArena × List VMemCall :=
  if commited = arena._commited then (true, arena, [])
  else
    let new_commited_bytes := varena_calc_bytes_used_for_size page_size commited
    let current_commited_bytes := varena_calc_bytes_used_for_size page_size arena._commited
    if new_commited_bytes = current_commited_bytes then
      (true, { arena with _commited := commited }, [])
    else if commited < arena._commited then
      if new_commited_bytes < current_commited_bytes then
        (true, { arena with _commited := commited },
          [VMemCall.decommit new_commited_bytes
            (current_commited_bytes - new_commited_bytes)])
      else (true, { arena with _commited := commited }, [])
    else
      if commited ≥ arena._buf_len then (false, arena, [])
      else if current_commited_bytes < new_commited_bytes then
        (true, { arena with _commited := commited },
          [VMemCall.commit 0 new_commited_bytes])
      else (true, { arena with _commited := commited }, [])

/-- Folding a list of `varena_set_commited` requests over a `VArena`. -/
def varena_run (page_size : Nat) (arena : VArena) : List Nat → VArena
  | [] => arena
  | c :: rest => varena_run page_size (varena_set_commited page_size arena c).2.1 rest

/-- C `VPOOL_SLOT_INDEX_INVALID = (VPoolSlotIndex)-1` with
`VPoolSlotIndex = uint32_t`. -/
def VPOOL_SLOT_INDEX_INVALID : Nat := 2 ^ 32 - 1

/-- C struct `VPool` (vpool.h). `slotmem i` is the `VPoolSlotIndex` stored
in the first four bytes of slot `i`'s memory (the embedded free list);
the rest of the slots' payload bytes play no role in the modelled
operations. -/
structure VPool where
  _buf : Nat
  _total_slots : Nat
  _slot_size_bytes : Nat
  _commited_bytes : Nat
  _head_slot : Nat
  _first_unused_slot : Nat
  slotmem : Nat → Nat

/-- C `vpool_init`: reserves `total_slots * slot_size_bytes` bytes, all
fields zero except `_first_unused_slot = VPOOL_SLOT_INDEX_INVALID`;
reserved memory is zero-filled. -/
def vpool_init (mem total_slots slot_size_bytes : Nat) : VPool :=
  ⟨mem, total_slots, slot_size_bytes, 0, 0, VPOOL_SLOT_INDEX_INVALID, fun _ => 0⟩

/-- C `vpool__calc_bytes_used_for_size`:
`vmem_align_forward(cap, vmem_get_page_size())`. -/
def vpool__calc_bytes_used_for_size (page_size cap : Nat) : Nat :=
  vmem_align_forward cap page_size

/-- C `vpool__set_commited_slots` (vpool.h). `void` in C; the `Bool` is
`false` exactly on the `assert(0 && "...")`-and-return path (the expand
branch with `commited_slots >= pool->_total_slots`), which leaves the pool
unchanged. All other paths end with
`pool->_commited_bytes = commited_bytes`. The `size_t` product
`commited_slots * slot_size` is reduced `% 2 ^ 64`. -/
def vpool__set_commited_slots (page_size : Nat) (pool : VPool) (commited_slots : Nat) :
    Bool × VPool × List VMemCall :=
  let commited_bytes := commited_slots * pool._slot_size_bytes % 2 ^ 64
  if commited_bytes = pool._commited_bytes then (true, pool, [])
  else
    let new_commited_bytes := vpool__calc_bytes_used_for_size page_size commited_bytes
    let current_commited_bytes := vpool__calc_bytes_used_for_size page_size pool._commited_bytes
    if new_commited_bytes = current_commited_bytes then
      (true, { pool with _commited_bytes := commited_bytes }, [])
    else if commited_bytes < pool._commited_bytes then
      if new_commited_bytes < current_commited_bytes then
        (true, { pool with _commited_bytes := commited_bytes },
          [VMemCall.decommit new_commited_bytes
            (current_commited_bytes - new_commited_bytes)])
      else (true, { pool with _commited_bytes := commited_bytes }, [])
    else
      if pool._total_slots ≤ commited_slots then (false, pool, [])
      else if current_commited_bytes < new_commited_bytes then
        (true, { pool with _commited_bytes := commited_bytes },
          [VMemCall.commit 0 new_commited_bytes])
      else (true, { pool with _commited_bytes := commited_bytes }, [])

/-- C `vpool_alloc_slot` (vpool.h). Pops the free list when it is nonempty
(no commit); otherwise calls `vpool__set_commited_slots(pool, head+1)` —
whose failure is *not* checked by the caller — then returns `_head_slot`
and increments it. Returns `(index, pool, Bool of the commit step, calls)`;
the `Bool` is `true` on the pop path. `uint32_t` arithmetic wraps
`% 2 ^ 32`. -/
def vpool_alloc_slot (page_size : Nat) (pool : VPool) : Nat × VPool × Bool × List VMemCall :=
  if pool._first_unused_slot ≠ VPOOL_SLOT_INDEX_INVALID then
    (pool._first_unused_slot,
      { pool with _first_unused_slot := pool.slotmem pool._first_unused_slot % 2 ^ 32 },
      true, [])
  else
    let r := vpool__set_commited_slots page_size pool ((pool._head_slot + 1) % 2 ^ 32)
    (r.2.1._head_slot,
      { r.2.1 with _head_slot := (r.2.1._head_slot + 1) % 2 ^ 32 }, r.1, r.2.2)

/-- C `vpool_dealloc_slot` / `vpool__dealloc_slot_with_ptr`: stores the
current `_first_unused_slot` in the slot's memory and makes the slot the
new head of the free list. -/
def vpool_dealloc_slot (pool : VPool) (index : Nat) : VPool :=
  { pool with
    slotmem := fun j => if j = index then pool._first_unused_slot else pool.slotmem j,
    _first_unused_slot := index }

/-- C `vpool_clear_and_decommit`: exactly `vpool__set_commited_slots(pool, 0)`. -/
def vpool_clear_and_decommit (page_size : Nat) (pool : VPool) : Bool × VPool × List VMemCall :=
  vpool__set_commited_slots page_size pool 0

/-- C++ `VArray<T>` (the typed array wrapper): a `VMemArena` plus an `int`
element count; `items i` is the element stored at slot `i` of the arena
memory reinterpreted as `T*`. -/
structure VArray (α : Type) where
  arena : VMemArena
  len : Nat
  items : Nat → α

/-- C++ `VArray::is_in_bounds`: `index >= 0 && index <= len`
(the source's comparison really is `<=`). -/
def VArray.is_in_bounds (a : VArray α) (index : Int) : Bool :=
  index ≥ 0 && index ≤ (a.len : Int)

/-- C++ `VArray::get`: the stored element when `is_in_bounds`, otherwise
the value-initialized `T()` (`default`). -/
def VArray.get [Inhabited α] (a : VArray α) (index : Int) : α :=
  if a.is_in_bounds index then a.items index.toNat else default

/-- C++ `VArray::put`: `vmem_arena_set_commited(&arena, len + 1)` — note
the argument is the raw element count `len + 1`, with no `sizeof(T)`
factor — then writes `value` at index `len` and increments `len`.
The `VMemResult` of the grow is ignored by the source; it is exposed here
as the `Bool`. -/
def VArray.put (page_size : Nat) (a : VArray α) (value : α) :
    Nat × VArray α × Bool × List VMemCall :=
  let r := vmem_arena_set_commited page_size a.arena (a.len + 1)
  (a.len,
    { arena := r.2.1, len := a.len + 1,
      items := fun j => if j = a.len then value else a.items j },
    r.1, r.2.2)

namespace Samples

/-- C++ `VPool<INDEX, T>` from `samples/vpool.h`, instantiated with a
32-bit `INDEX` (`INVALID_INDEX = (INDEX)-1` is `2 ^ 32 - 1`). `slots i` is
slot `i` read as a `T`; `slotidx i` is the same memory read as an `INDEX`
(the embedded free list). -/
structure VPool (α : Type) where
  arena : VMemArena
  head_slot : Nat
  first_free_slot : Nat
  slots : Nat → α
  slotidx : Nat → Nat

/-- `VPool::INVALID_INDEX = (INDEX)-1`. -/
def VPool.INVALID_INDEX : Nat := 2 ^ 32 - 1

/-- C++ `VPool::is_in_bounds`: `slot >= 0 && slot <= head_slot`
(the source's comparison really is `<=`). -/
def VPool.is_in_bounds (p : VPool α) (slot : Int) : Bool :=
  slot ≥ 0 && slot ≤ (p.head_slot : Int)

/-- C++ `VPool::get`: the stored slot when `is_in_bounds`, otherwise the
value-initialized `{}` (`default`). -/
def VPool.get [Inhabited α] (p : VPool α) (slot : Int) : α :=
  if p.is_in_bounds slot then p.slots slot.toNat else default

/-- C++ `VPool::put`: pop the free list when nonempty, else
`vmem_arena_set_commited(&arena, head_slot + 1)` — again the raw slot
count, no `sizeof(T)` — then return `head_slot` and increment it. The
`value` argument is never stored by the source. Returns
`(slot, pool, Bool of the grow step, calls)`. -/
def VPool.put (page_size : Nat) (p : VPool α) (_value : α) :
    Nat × VPool α × Bool × List VMemCall :=
  if p.first_free_slot ≠ VPool.INVALID_INDEX then
    (p.first_free_slot,
      { p with first_free_slot := p.slotidx p.first_free_slot % 2 ^ 32 }, true, [])
  else
    let r := vmem_arena_set_commited page_size p.arena (p.head_slot + 1)
    (p.head_slot, { p with arena := r.2.1, head_slot := p.head_slot + 1 }, r.1, r.2.2)

/-- C++ `VPool::remove`: push `slot` onto the free list (stores the old
`first_free_slot` into the slot's memory). -/
def VPool.remove (p : VPool α) (slot : Nat) : VPool α :=
  { p with
    slotidx := fun j => if j = slot then p.first_free_slot else p.slotidx j,
    first_free_slot := slot }

end Samples

/-- The process-wide cached values
`static VMemSize vmem__g_page_size = 0;`
`static VMemSize vmem__g_allocation_granularity = 0;` (vmem.h v0.2). -/
structure VMemGlobals where
  page_size : Nat
  allocation_granularity : Nat
deriving DecidableEq, Repr

/-- The static initialization of the globals: both cells are zero before
`vmem_init` runs. -/
def vmem__g_startup : VMemGlobals := ⟨0, 0⟩

/-- C `vmem_init`: caches `vmem_query_page_size()` and
`vmem_query_allocation_granularity()` (passed as parameters: they are OS
queries) into the globals. -/
def vmem_init (query_page_size query_allocation_granularity : Nat)
    (_g : VMemGlobals) : VMemGlobals :=
  ⟨query_page_size, query_allocation_granularity⟩

/-- C `vmem_get_page_size`: returns the cached global. -/
def vmem_get_page_size (g : VMemGlobals) : Nat := g.page_size

/-- C `vmem_get_allocation_granularity`: returns the cached global. -/
def vmem_get_allocation_granularity (g : VMemGlobals) : Nat :=
  g.allocation_granularity

/-! ## Alignment arithmetic lemmas -/

/-- A power of two passes the `align & (align - 1)` power-of-two test. -/
theorem two_pow_land_sub_one (k : Nat) : 2 ^ k &&& (2 ^ k - 1) = 0 := by
  apply Nat.eq_of_testBit_eq
  intro i
  simp only [Nat.testBit_land, Nat.testBit_two_pow, Nat.testBit_two_pow_sub_one,
    Nat.zero_testBit]
  by_cases h : k = i
  · subst h; simp
  · simp [h]

/-- Conjunction with the high mask `2 ^ 64 - 2 ^ k` clears the low `k` bits:
for `y < 2 ^ 64` it equals `2 ^ k * (y / 2 ^ k)`. -/
theorem land_high_mask (k y : Nat) (hk : k ≤ 64) (hy : y < 2 ^ 64) :
    y &&& (2 ^ 64 - 2 ^ k) = 2 ^ k * (y / 2 ^ k) := by
  have hrw : 2 ^ 64 - 2 ^ k = (2 ^ (64 - k) - 1) <<< k := by
    rw [Nat.shiftLeft_eq, Nat.sub_mul, one_mul, ← Nat.pow_add, Nat.sub_add_cancel hk]
  have hrhs : 2 ^ k * (y / 2 ^ k) = (y >>> k) <<< k := by
    rw [Nat.shiftRight_eq_div_pow, Nat.shiftLeft_eq, Nat.mul_comm]
  rw [hrw, hrhs]
  apply Nat.eq_of_testBit_eq
  intro i
  rw [Nat.testBit_land, Nat.testBit_shiftLeft, Nat.testBit_shiftLeft,
    Nat.testBit_shiftRight, Nat.testBit_two_pow_sub_one]
  by_cases hik : k ≤ i
  · have hki : k + (i - k) = i := by omega
    rw [hki]
    by_cases hi64 : i < 64
    · have h1 : decide (i - k < 64 - k) = true := by simp; omega
      have h2 : decide (i ≥ k) = true := by simp [hik]
      rw [h1, h2]
      cases y.testBit i <;> simp
    · have h1 : y.testBit i = false :=
        Nat.testBit_lt_two_pow
          (lt_of_lt_of_le hy (Nat.pow_le_pow_right (by norm_num) (by omega)))
      have h2 : decide (i - k < 64 - k) = false := by simp; omega
      rw [h1, h2]
      simp
  · have h2 : decide (i ≥ k) = false := by simp [hik]
    rw [h2]
    simp

/-- `vmem_align_forward_fast` at a power-of-two alignment, below the 64-bit
overflow threshold, is the usual round-up-to-multiple. -/
theorem vmem_align_forward_fast_two_pow (k x : Nat) (hk : k ≤ 64)
    (hx : x + 2 ^ k - 1 < 2 ^ 64) :
    vmem_align_forward_fast x (2 ^ k) = 2 ^ k * ((x + 2 ^ k - 1) / 2 ^ k) := by
  have hpos : 0 < 2 ^ k := Nat.pos_pow_of_pos _ (by norm_num)
  have h1 : x + (2 ^ k - 1) = x + 2 ^ k - 1 := by omega
  have h2 : 2 ^ 64 - 1 - (2 ^ k - 1) = 2 ^ 64 - 2 ^ k := by
    have : 2 ^ k ≤ 2 ^ 64 := Nat.pow_le_pow_right (by norm_num) hk
    omega
  rw [vmem_align_forward_fast, h1, h2, Nat.mod_eq_of_lt hx]
  exact land_high_mask k _ hk hx

/-- `vmem_align_forward` at a power-of-two alignment, below the 64-bit
overflow threshold, is the usual round-up-to-multiple. -/
theorem vmem_align_forward_two_pow (k x : Nat) (hk : k ≤ 64)
    (hx : x + 2 ^ k - 1 < 2 ^ 64) :
    vmem_align_forward x (2 ^ k) = 2 ^ k * ((x + 2 ^ k - 1) / 2 ^ k) := by
  have hne : (2 ^ k : Nat) ≠ 0 := (Nat.pos_pow_of_pos _ (by norm_num)).ne'
  simp only [vmem_align_forward, two_pow_land_sub_one]
  rw [if_neg hne, if_neg (by simp)]
  exact vmem_align_forward_fast_two_pow k x hk hx

/-- Rounding up to a multiple of `p` never decreases the value. -/
theorem le_roundUp (p x : Nat) (hp : 0 < p) : x ≤ p * ((x + p - 1) / p) := by
  have hdm := Nat.div_add_mod (x + p - 1) p
  have hlt : (x + p - 1) % p < p := Nat.mod_lt _ hp
  set A := p * ((x + p - 1) / p) with hA
  set B := (x + p - 1) % p with hB
  omega

/-- The round-up is a multiple of `p`. -/
theorem roundUp_mod (p x : Nat) : (p * ((x + p - 1) / p)) % p = 0 :=
  Nat.mul_mod_right _ _

/-- Round-up minimality: the round-up of `x` stays below any multiple of `p`
that is at least `x`. -/
theorem roundUp_le_of_dvd (p x s : Nat) (hp : 0 < p) (hx : x ≤ s) (hd : p ∣ s) :
    p * ((x + p - 1) / p) ≤ s := by
  obtain ⟨m, rfl⟩ := hd
  have h1 : (x + p - 1) / p ≤ m := by
    have hle : x + p - 1 ≤ (p - 1) + p * m := by omega
    calc (x + p - 1) / p ≤ ((p - 1) + p * m) / p := Nat.div_le_div_right hle
      _ = (p - 1) / p + m := Nat.add_mul_div_left _ _ hp
      _ = m := by rw [Nat.div_eq_of_lt (by omega)]; omega
  exact Nat.mul_le_mul_left _ h1

/-- `vmem_arena_calc_bytes_used_for_size` dominates its argument (no
64-bit overflow, power-of-two page size). -/
theorem le_calc_bytes (k x : Nat) (hk : k ≤ 64) (hx : x + 2 ^ k ≤ 2 ^ 64) :
    x ≤ vmem_arena_calc_bytes_used_for_size (2 ^ k) x := by
  have hpos : 0 < 2 ^ k := Nat.pos_pow_of_pos _ (by norm_num)
  rw [vmem_arena_calc_bytes_used_for_size,
    vmem_align_forward_two_pow k x hk (by omega)]
  exact le_roundUp _ _ hpos

/-- `vmem_arena_calc_bytes_used_for_size` yields a multiple of the page
size (no 64-bit overflow, power-of-two page size). -/
theorem calc_bytes_mod (k x : Nat) (hk : k ≤ 64) (hx : x + 2 ^ k ≤ 2 ^ 64) :
    vmem_arena_calc_bytes_used_for_size (2 ^ k) x % 2 ^ k = 0 := by
  rw [vmem_arena_calc_bytes_used_for_size,
    vmem_align_forward_two_pow k x hk (by omega)]
  exact roundUp_mod _ _

/-- `vmem_arena_calc_bytes_used_for_size x` stays below any page-aligned
bound that is at least `x` (no 64-bit overflow, power-of-two page size). -/
theorem calc_bytes_le_of_dvd (k x s : Nat) (hk : k ≤ 64) (hx : x ≤ s)
    (hd : 2 ^ k ∣ s) (hs : s + 2 ^ k ≤ 2 ^ 64) :
    vmem_arena_calc_bytes_used_for_size (2 ^ k) x ≤ s := by
  have hpos : 0 < 2 ^ k := Nat.pos_pow_of_pos _ (by norm_num)
  rw [vmem_arena_calc_bytes_used_for_size,
    vmem_align_forward_two_pow k x hk (by omega)]
  exact roundUp_le_of_dvd _ _ _ hpos hx hd

/-- The three per-size rounding helpers are one function. -/
theorem varena_calc_eq_vmem_calc :
    varena_calc_bytes_used_for_size = vmem_arena_calc_bytes_used_for_size := rfl

/-- The three per-size rounding helpers are one function. -/
theorem vpool_calc_eq_vmem_calc :
    vpool__calc_bytes_used_for_size = vmem_arena_calc_bytes_used_for_size := rfl

/-! ## Arena invariant preservation -/

/-- `vmem_partially_commit_region` succeeds only on a request that equals
the previous value or stays within `num_bytes`. -/
theorem vmem_partially_commit_region_true (ps n prev c : Nat)
    (h : (vmem_partially_commit_region ps n prev c).1 = true) :
    c = prev ∨ c ≤ n := by
  by_cases h1 : c = prev
  · exact Or.inl h1
  · by_cases h2 : c > n
    · rw [vmem_partially_commit_region, if_neg h1, if_pos h2] at h
      exact absurd h (by simp)
    · exact Or.inr (by omega)

/-- One `vmem_arena_set_commited` step keeps `commited ≤ size_bytes` and
never changes `size_bytes` or `mem`. -/
theorem vmem_arena_set_commited_inv (ps : Nat) (a : VMemArena) (c : Nat)
    (h : a.commited ≤ a.size_bytes) :
    ((vmem_arena_set_commited ps a c).2.1).commited
      ≤ ((vmem_arena_set_commited ps a c).2.1).size_bytes ∧
    ((vmem_arena_set_commited ps a c).2.1).size_bytes = a.size_bytes ∧
    ((vmem_arena_set_commited ps a c).2.1).mem = a.mem := by
  unfold vmem_arena_set_commited
  by_cases hr : (vmem_partially_commit_region ps a.size_bytes a.commited c).1
  · rcases vmem_partially_commit_region_true ps a.size_bytes a.commited c hr with h1 | h1 <;>
      simp [hr] <;> omega
  · simp [hr, h]

/-- Running any request list from a state with `commited ≤ size_bytes`
keeps the invariant; `size_bytes` and `mem` never change. -/
theorem vmem_arena_run_inv (ps : Nat) (l : List Nat) (a : VMemArena)
    (h : a.commited ≤ a.size_bytes) :
    (vmem_arena_run ps a l).commited ≤ (vmem_arena_run ps a l).size_bytes ∧
    (vmem_arena_run ps a l).size_bytes = a.size_bytes ∧
    (vmem_arena_run ps a l).mem = a.mem := by
  induction l generalizing a with
  | nil => exact ⟨h, rfl, rfl⟩
  | cons c rest ih =>
    rw [vmem_arena_run]
    obtain ⟨h1, h2, h3⟩ := vmem_arena_set_commited_inv ps a c h
    obtain ⟨h4, h5, h6⟩ := ih _ h1
    exact ⟨h4, h5.trans h2, h6.trans h3⟩

/-- One `varena_set_commited` step keeps `_commited ≤ _buf_len` when the
buffer length is page-aligned, nothing overflows, and the request is a
`size_t` value that survives the rounding; `_buf_len` never changes. -/
theorem varena_set_commited_inv (k : Nat) (b : VArena) (c : Nat) (hk : k ≤ 64)
    (hd : 2 ^ k ∣ b._buf_len) (hs : b._buf_len + 2 ^ k ≤ 2 ^ 64)
    (hc : c + 2 ^ k ≤ 2 ^ 64) (h : b._commited ≤ b._buf_len) :
    ((varena_set_commited (2 ^ k) b c).2.1)._commited ≤ b._buf_len ∧
    ((varena_set_commited (2 ^ k) b c).2.1)._buf_len = b._buf_len := by
  unfold varena_set_commited
  by_cases h1 : c = b._commited
  · simp only [h1, if_pos rfl]
    exact ⟨h, rfl⟩
  · rw [if_neg h1]
    by_cases h2 : varena_calc_bytes_used_for_size (2 ^ k) c
        = varena_calc_bytes_used_for_size (2 ^ k) b._commited
    · have hle : c ≤ varena_calc_bytes_used_for_size (2 ^ k) c := by
        rw [varena_calc_eq_vmem_calc]
        exact le_calc_bytes k c hk hc
      have hle2 : varena_calc_bytes_used_for_size (2 ^ k) b._commited ≤ b._buf_len := by
        rw [varena_calc_eq_vmem_calc]
        exact calc_bytes_le_of_dvd k b._commited b._buf_len hk h hd hs
      simp only [h2, if_pos rfl]
      exact ⟨show c ≤ b._buf_len by omega, rfl⟩
    · rw [if_neg h2]
      by_cases h3 : c < b._commited
      · rw [if_pos h3]
        by_cases h4 : varena_calc_bytes_used_for_size (2 ^ k) c
            < varena_calc_bytes_used_for_size (2 ^ k) b._commited
        · rw [if_pos h4]
          exact ⟨show c ≤ b._buf_len by omega, rfl⟩
        · rw [if_neg h4]
          exact ⟨show c ≤ b._buf_len by omega, rfl⟩
      · rw [if_neg h3]
        by_cases h5 : c ≥ b._buf_len
        · rw [if_pos h5]
          exact ⟨h, rfl⟩
        · rw [if_neg h5]
          by_cases h6 : varena_calc_bytes_used_for_size (2 ^ k) b._commited
              < varena_calc_bytes_used_for_size (2 ^ k) c
          · rw [if_pos h6]
            exact ⟨show c ≤ b._buf_len by omega, rfl⟩
          · rw [if_neg h6]
            exact ⟨show c ≤ b._buf_len by omega, rfl⟩

/-- Running any list of in-range requests over a `VArena` with page-aligned
buffer length keeps `_commited ≤ _buf_len`; `_buf_len` never changes. -/
theorem varena_run_inv (k : Nat) (l : List Nat) (b : VArena) (hk : k ≤ 64)
    (hd : 2 ^ k ∣ b._buf_len) (hs : b._buf_len + 2 ^ k ≤ 2 ^ 64)
    (hreq : ∀ c ∈ l, c + 2 ^ k ≤ 2 ^ 64) (h : b._commited ≤ b._buf_len) :
    (varena_run (2 ^ k) b l)._commited ≤ b._buf_len ∧
    (varena_run (2 ^ k) b l)._buf_len = b._buf_len := by
  induction l generalizing b with
  | nil => exact ⟨h, rfl⟩
  | cons c rest ih =>
    rw [varena_run]
    obtain ⟨h1, h2⟩ := varena_set_commited_inv k b c hk hd hs
      (hreq c (by simp)) h
    obtain ⟨h4, h5⟩ := ih (varena_set_commited (2 ^ k) b c).2.1
      (by rw [h2]; exact hd) (by rw [h2]; exact hs)
      (fun x hx => hreq x (List.mem_cons_of_mem _ hx))
      (by rw [h2]; exact h1)
    rw [h2] at h4
    exact ⟨h4, h5.trans h2⟩

/-- Rounding 0 up to a page is 0. -/
theorem vmem_align_forward_zero (k : Nat) (hk : k ≤ 64) :
    vmem_align_forward 0 (2 ^ k) = 0 := by
  have hpos : 0 < (2 : Nat) ^ k := Nat.pos_pow_of_pos _ (by norm_num)
  have hk64 : (2 : Nat) ^ k ≤ 2 ^ 64 := Nat.pow_le_pow_right (by norm_num) hk
  rw [vmem_align_forward_two_pow k 0 hk (by omega),
    Nat.div_eq_of_lt (by omega), Nat.mul_zero]

/-- The `uintptr_t` overflow of `vmem_align_forward_fast`: rounding the
maximal `size_t` value `2 ^ 64 - 1` up to a page of `2 ^ k` bytes
(`0 < k`) wraps `(address + mask)` past `2 ^ 64` and the masked result is
0, not a huge round-up. -/
theorem vmem_align_forward_wrap (k : Nat) (hk0 : 0 < k) (hk : k ≤ 64) :
    vmem_align_forward (2 ^ 64 - 1) (2 ^ k) = 0 := by
  have hne : (2 ^ k : Nat) ≠ 0 := (Nat.pos_pow_of_pos _ (by norm_num)).ne'
  have h2k : (2 : Nat) ≤ 2 ^ k := by
    calc (2 : Nat) = 2 ^ 1 := (pow_one 2).symm
      _ ≤ 2 ^ k := Nat.pow_le_pow_right (by norm_num) hk0
  have hk64 : (2 : Nat) ^ k ≤ 2 ^ 64 := Nat.pow_le_pow_right (by norm_num) hk
  simp only [vmem_align_forward, two_pow_land_sub_one]
  rw [if_neg hne, if_neg (by simp)]
  unfold vmem_align_forward_fast
  have h1 : 2 ^ 64 - 1 + (2 ^ k - 1) = 2 ^ 64 + (2 ^ k - 2) := by omega
  have h2 : (2 ^ 64 + (2 ^ k - 2)) % 2 ^ 64 = 2 ^ k - 2 := by
    rw [Nat.add_mod_left]
    exact Nat.mod_eq_of_lt (by omega)
  have h3 : 2 ^ 64 - 1 - (2 ^ k - 1) = 2 ^ 64 - 2 ^ k := by omega
  rw [h1, h2, h3, land_high_mask k _ hk (by omega),
    Nat.div_eq_of_lt (by omega), Nat.mul_zero]

/-! ## Claims -/

/-- C1, counterexample to the claim as stated: with page size 4096 and an
arena whose reservation is 100 bytes (not page-aligned),
`vmem_arena_set_commited(arena, 50)` succeeds, yet the stored `commited`
field (50) is not a multiple of the page size, and the OS-committed byte
count (`vmem_arena_calc_bytes_used_for_size` of it, 4096) exceeds the
100-byte reservation — so `committed_bytes ≤ total_reserved_bytes` fails. -/
theorem c1_counterexample :
    (vmem_arena_set_commited 4096 ⟨1, 100, 0⟩ 50).1 = true ∧
    ((vmem_arena_set_commited 4096 ⟨1, 100, 0⟩ 50).2.1).commited = 50 ∧
    vmem_arena_calc_bytes_used_for_size 4096
      ((vmem_arena_set_commited 4096 ⟨1, 100, 0⟩ 50).2.1).commited = 4096 ∧
    ¬(50 % 4096 = 0) ∧
    ¬(vmem_arena_calc_bytes_used_for_size 4096
      ((vmem_arena_set_commited 4096 ⟨1, 100, 0⟩ 50).2.1).commited ≤ 100) := by
  decide

/-- C1, amended: for every arena whose reserved size is a multiple of the
(power-of-two) page size, applied from a freshly initialized arena: for
`vmem_arena_set_commited` (vmem.h v0.2), after *every* sequence of
requests whatsoever, the OS-committed byte count
`calc_bytes_used_for_size(commited)` is a multiple of the page size and
`0 ≤ used_length (the commited field) ≤ committed_bytes ≤ total_reserved`
holds (its capacity check precedes the rounding, so even the maximal
`size_t` request is rejected harmlessly). For `varena_set_commited` the
same invariants hold provided every request is at most
`2 ^ 64 - page_size`: a `size_t` request above that bound genuinely breaks
them — the page rounding wraps `uintptr_t` to 0, the equal-rounding path
skips the capacity check, and the arena stores the huge `_commited` with
nothing committed, as the last conjunct exhibits for the request
`2 ^ 64 - 1` on any fresh arena. Failed operations leave the state
unchanged, so running an arbitrary list covers every prefix of successful
operations. -/
theorem c1_set_commited_invariants (k mem size : Nat) (l : List Nat)
    (hk : k ≤ 64) (hd : 2 ^ k ∣ size) (hs : size + 2 ^ k ≤ 2 ^ 64) :
    ((vmem_arena_run (2 ^ k) (vmem_arena_init_alloc mem size) l).commited
        ≤ vmem_arena_calc_bytes_used_for_size (2 ^ k)
            (vmem_arena_run (2 ^ k) (vmem_arena_init_alloc mem size) l).commited ∧
      vmem_arena_calc_bytes_used_for_size (2 ^ k)
          (vmem_arena_run (2 ^ k) (vmem_arena_init_alloc mem size) l).commited
          % 2 ^ k = 0 ∧
      vmem_arena_calc_bytes_used_for_size (2 ^ k)
          (vmem_arena_run (2 ^ k) (vmem_arena_init_alloc mem size) l).commited
        ≤ (vmem_arena_run (2 ^ k) (vmem_arena_init_alloc mem size) l).size_bytes) ∧
    ((∀ c ∈ l, c + 2 ^ k ≤ 2 ^ 64) →
      (varena_run (2 ^ k) (varena_init mem size) l)._commited
          ≤ varena_calc_bytes_used_for_size (2 ^ k)
              (varena_run (2 ^ k) (varena_init mem size) l)._commited ∧
        varena_calc_bytes_used_for_size (2 ^ k)
            (varena_run (2 ^ k) (varena_init mem size) l)._commited % 2 ^ k = 0 ∧
        varena_calc_bytes_used_for_size (2 ^ k)
            (varena_run (2 ^ k) (varena_init mem size) l)._commited
          ≤ (varena_run (2 ^ k) (varena_init mem size) l)._buf_len) ∧
    (0 < k → ∀ b : VArena, b._commited = 0 →
      varena_set_commited (2 ^ k) b (2 ^ 64 - 1)
        = (true, { b with _commited := 2 ^ 64 - 1 }, []) ∧
      varena_calc_bytes_used_for_size (2 ^ k) (2 ^ 64 - 1) = 0) := by
  have hk64 : (2 : Nat) ^ k ≤ 2 ^ 64 := Nat.pow_le_pow_right (by norm_num) hk
  refine ⟨?_, fun hreq => ?_, fun hk0 b hb => ?_⟩
  · set a0 := vmem_arena_init_alloc mem size with ha0
    have hsz0 : a0.size_bytes = size ∨ a0.size_bytes = 0 := by
      rw [ha0]; unfold vmem_arena_init_alloc; split <;> simp
    have hc0 : a0.commited = 0 := by
      rw [ha0]; unfold vmem_arena_init_alloc; split <;> simp
    obtain ⟨h1, h2, _⟩ := vmem_arena_run_inv (2 ^ k) l a0 (by omega)
    have hd0 : 2 ^ k ∣ a0.size_bytes := by
      rcases hsz0 with h | h <;> rw [h]
      · exact hd
      · exact dvd_zero _
    have hs0 : a0.size_bytes + 2 ^ k ≤ 2 ^ 64 := by
      rcases hsz0 with h | h <;> rw [h] <;> omega
    have hxa : (vmem_arena_run (2 ^ k) a0 l).commited + 2 ^ k ≤ 2 ^ 64 := by omega
    refine ⟨le_calc_bytes k _ hk hxa, calc_bytes_mod k _ hk hxa, ?_⟩
    rw [h2]
    exact calc_bytes_le_of_dvd k _ _ hk (h2 ▸ h1) hd0 hs0
  · set b0 := varena_init mem size with hb0
    have hdb : 2 ^ k ∣ b0._buf_len := hd
    have hsb : b0._buf_len + 2 ^ k ≤ 2 ^ 64 := hs
    obtain ⟨h1, h2⟩ := varena_run_inv k l b0 hk hdb hsb hreq (by exact Nat.zero_le _)
    have hxb : (varena_run (2 ^ k) b0 l)._commited + 2 ^ k ≤ 2 ^ 64 := by
      have : b0._buf_len = size := rfl
      omega
    rw [varena_calc_eq_vmem_calc]
    refine ⟨le_calc_bytes k _ hk hxb, calc_bytes_mod k _ hk hxb, ?_⟩
    rw [h2]
    exact calc_bytes_le_of_dvd k _ _ hk h1 hdb hsb
  · have hwrap : varena_calc_bytes_used_for_size (2 ^ k) (2 ^ 64 - 1) = 0 := by
      rw [varena_calc_eq_vmem_calc]
      exact vmem_align_forward_wrap k hk0 hk
    have hcb : varena_calc_bytes_used_for_size (2 ^ k) b._commited = 0 := by
      rw [hb, varena_calc_eq_vmem_calc]
      exact vmem_align_forward_zero k hk
    have hne2 : ¬(2 ^ 64 - 1 = b._commited) := by
      rw [hb]; omega
    refine ⟨?_, hwrap⟩
    unfold varena_set_commited
    rw [if_neg hne2, hwrap, hcb]
    rfl

/-- C1, witness: the amended invariant theorem applied at page size
`2 ^ 12`, an 8192-byte arena and the request list `[100, 5000, 0, 8192]`
(whose members are all within the varena request bound). -/
theorem c1_set_commited_invariants_witness :
    (12 ≤ 64) ∧ (2 ^ 12 ∣ 8192) ∧ (8192 + 2 ^ 12 ≤ 2 ^ 64) ∧
    (((vmem_arena_run (2 ^ 12) (vmem_arena_init_alloc 1 8192) [100, 5000, 0, 8192]).commited
        ≤ vmem_arena_calc_bytes_used_for_size (2 ^ 12)
            (vmem_arena_run (2 ^ 12) (vmem_arena_init_alloc 1 8192) [100, 5000, 0, 8192]).commited ∧
      vmem_arena_calc_bytes_used_for_size (2 ^ 12)
          (vmem_arena_run (2 ^ 12) (vmem_arena_init_alloc 1 8192) [100, 5000, 0, 8192]).commited
          % 2 ^ 12 = 0 ∧
      vmem_arena_calc_bytes_used_for_size (2 ^ 12)
          (vmem_arena_run (2 ^ 12) (vmem_arena_init_alloc 1 8192) [100, 5000, 0, 8192]).commited
        ≤ (vmem_arena_run (2 ^ 12) (vmem_arena_init_alloc 1 8192) [100, 5000, 0, 8192]).size_bytes) ∧
    ((∀ c ∈ [100, 5000, 0, 8192], c + 2 ^ 12 ≤ 2 ^ 64) →
      (varena_run (2 ^ 12) (varena_init 1 8192) [100, 5000, 0, 8192])._commited
          ≤ varena_calc_bytes_used_for_size (2 ^ 12)
              (varena_run (2 ^ 12) (varena_init 1 8192) [100, 5000, 0, 8192])._commited ∧
        varena_calc_bytes_used_for_size (2 ^ 12)
            (varena_run (2 ^ 12) (varena_init 1 8192) [100, 5000, 0, 8192])._commited % 2 ^ 12 = 0 ∧
        varena_calc_bytes_used_for_size (2 ^ 12)
            (varena_run (2 ^ 12) (varena_init 1 8192) [100, 5000, 0, 8192])._commited
          ≤ (varena_run (2 ^ 12) (varena_init 1 8192) [100, 5000, 0, 8192])._buf_len) ∧
    (0 < 12 → ∀ b : VArena, b._commited = 0 →
      varena_set_commited (2 ^ 12) b (2 ^ 64 - 1)
        = (true, { b with _commited := 2 ^ 64 - 1 }, []) ∧
      varena_calc_bytes_used_for_size (2 ^ 12) (2 ^ 64 - 1) = 0)) :=
  ⟨by decide, by decide, by decide,
    c1_set_commited_invariants 12 1 8192 [100, 5000, 0, 8192]
      (by decide) (by decide) (by decide)⟩

/-- C2: a `vmem_arena_set_commited` request strictly greater than the
reserved capacity fails (`VMemResult_Error`), leaves `commited` (and the
whole arena) exactly as before, and issues no commit or decommit call.
The hypothesis `commited ≤ size_bytes` is the reachable-state invariant
(it rules out the degenerate `commited > size_bytes` starting states,
where the `commited == prev_commited` short-circuit would apply). -/
theorem c2_capacity_exceeded_fails (ps : Nat) (a : VMemArena) (c : Nat)
    (hinv : a.commited ≤ a.size_bytes) (hc : a.size_bytes < c) :
    vmem_arena_set_commited ps a c = (false, a, []) := by
  have h1 : ¬(c = a.commited) := by omega
  unfold vmem_arena_set_commited vmem_partially_commit_region
  rw [if_neg h1, if_pos (show c > a.size_bytes from hc)]
  rfl

/-- C2, witness: an arena with 8192 reserved and 50 used; requesting 9000
bytes fails with no state change and no provider call. -/
theorem c2_capacity_exceeded_fails_witness :
    ((⟨1, 8192, 50⟩ : VMemArena).commited ≤ (⟨1, 8192, 50⟩ : VMemArena).size_bytes) ∧
    ((⟨1, 8192, 50⟩ : VMemArena).size_bytes < 9000) ∧
    vmem_arena_set_commited 4096 ⟨1, 8192, 50⟩ 9000 = (false, ⟨1, 8192, 50⟩, []) :=
  ⟨by decide, by decide,
    c2_capacity_exceeded_fails 4096 ⟨1, 8192, 50⟩ 9000 (by decide) (by decide)⟩

/-- C3: when the request is within capacity and rounds up to the same
page-aligned committed size as the current value, both
`vmem_arena_set_commited` (via `vmem_partially_commit_region`) and
`varena_set_commited` succeed, update only the stored commited/used
length, and issue no commit or decommit call. -/
theorem c3_same_page_no_syscall (ps : Nat) (a : VMemArena) (b : VArena) (c d : Nat)
    (hca : c ≤ a.size_bytes)
    (hra : vmem_arena_calc_bytes_used_for_size ps c
      = vmem_arena_calc_bytes_used_for_size ps a.commited)
    (hdb : d ≤ b._buf_len)
    (hrb : varena_calc_bytes_used_for_size ps d
      = varena_calc_bytes_used_for_size ps b._commited) :
    vmem_arena_set_commited ps a c = (true, { a with commited := c }, []) ∧
    varena_set_commited ps b d = (true, { b with _commited := d }, []) := by
  constructor
  · by_cases h : c = a.commited
    · subst h
      simp [vmem_arena_set_commited, vmem_partially_commit_region]
    · simp [vmem_arena_set_commited, vmem_partially_commit_region, h, hra,
        show ¬(c > a.size_bytes) by omega]
  · by_cases h : d = b._commited
    · subst h
      simp [varena_set_commited]
    · simp [varena_set_commited, h, hrb]

/-- C3, witness: with page size 4096, requests 200 and 300 both round to
the same single page as current values 100: success, field update only,
no provider call. -/
theorem c3_same_page_no_syscall_witness :
    (200 ≤ (⟨1, 8192, 100⟩ : VMemArena).size_bytes) ∧
    (vmem_arena_calc_bytes_used_for_size 4096 200
      = vmem_arena_calc_bytes_used_for_size 4096 (⟨1, 8192, 100⟩ : VMemArena).commited) ∧
    (300 ≤ (⟨1, 8192, 100, 0⟩ : VArena)._buf_len) ∧
    (varena_calc_bytes_used_for_size 4096 300
      = varena_calc_bytes_used_for_size 4096 (⟨1, 8192, 100, 0⟩ : VArena)._commited) ∧
    (vmem_arena_set_commited 4096 ⟨1, 8192, 100⟩ 200 = (true, ⟨1, 8192, 200⟩, []) ∧
      varena_set_commited 4096 ⟨1, 8192, 100, 0⟩ 300 = (true, ⟨1, 8192, 300, 0⟩, [])) :=
  ⟨by decide, by decide, by decide, by decide,
    c3_same_page_no_syscall 4096 ⟨1, 8192, 100⟩ ⟨1, 8192, 100, 0⟩ 200 300
      (by decide) (by decide) (by decide) (by decide)⟩

/-- C4, evaluation at the failing inputs: `vmem_arena_set_commited` (the
v0.2 arena, which the claim correctly describes) accepts a grow to exactly
its 4096-byte capacity, rejects 4097, and accepts a shrink to 0 — but
`varena_set_commited` rejects a grow to exactly its capacity (its check is
`commited >= _buf_len`), and `vpool__set_commited_slots` likewise rejects
committing all `total_slots` slots (`commited_slots >= _total_slots`):
growing exactly to capacity is *not* accepted by the varena/vpool
variants, though shrinking to 0 still succeeds. -/
theorem c4_exact_capacity_eval :
    vmem_arena_set_commited 4096 ⟨1, 4096, 0⟩ 4096
      = (true, ⟨1, 4096, 4096⟩, [VMemCall.commit 0 4096]) ∧
    vmem_arena_set_commited 4096 ⟨1, 4096, 0⟩ 4097 = (false, ⟨1, 4096, 0⟩, []) ∧
    vmem_arena_set_commited 4096 ⟨1, 4096, 4096⟩ 0
      = (true, ⟨1, 4096, 0⟩, [VMemCall.decommit 0 4096]) ∧
    varena_set_commited 4096 ⟨1, 4096, 0, 0⟩ 4096 = (false, ⟨1, 4096, 0, 0⟩, []) ∧
    varena_set_commited 4096 ⟨1, 4096, 3000, 0⟩ 0
      = (true, ⟨1, 4096, 0, 0⟩, [VMemCall.decommit 0 4096]) ∧
    (vpool__set_commited_slots 4096 (vpool_init 1 1 4096) 1).1 = false ∧
    ((vpool__set_commited_slots 4096 (vpool_init 1 1 4096) 1).2.1)._commited_bytes = 0 := by
  decide

/-! ## Slot-pool helper lemmas -/

/-- `vpool__set_commited_slots` only ever touches `_commited_bytes`: every
other field of the pool is returned unchanged on every path. -/
theorem vpool__set_commited_slots_fields (ps : Nat) (p : VPool) (n : Nat) :
    ((vpool__set_commited_slots ps p n).2.1)._head_slot = p._head_slot ∧
    ((vpool__set_commited_slots ps p n).2.1)._first_unused_slot = p._first_unused_slot ∧
    ((vpool__set_commited_slots ps p n).2.1).slotmem = p.slotmem ∧
    ((vpool__set_commited_slots ps p n).2.1)._total_slots = p._total_slots ∧
    ((vpool__set_commited_slots ps p n).2.1)._buf = p._buf ∧
    ((vpool__set_commited_slots ps p n).2.1)._slot_size_bytes = p._slot_size_bytes := by
  simp only [vpool__set_commited_slots]
  repeat' split
  all_goals exact ⟨rfl, rfl, rfl, rfl, rfl, rfl⟩

/-- `vpool_alloc_slot` on a nonempty free list pops its head: no commit
work, no calls, only `_first_unused_slot` changes. -/
theorem vpool_alloc_slot_pop (ps : Nat) (p : VPool)
    (h : p._first_unused_slot ≠ VPOOL_SLOT_INDEX_INVALID) :
    vpool_alloc_slot ps p = (p._first_unused_slot,
      { p with _first_unused_slot := p.slotmem p._first_unused_slot % 2 ^ 32 },
      true, []) := by
  unfold vpool_alloc_slot
  rw [if_pos h]

/-- Bounds facts about one `vpool_alloc_slot` step: starting from a pool
whose free-list head is a `uint32_t` value and whose head slot has room to
be counted up, the returned index is a valid (non-`INVALID`) `uint32_t`,
the new free-list head is a `uint32_t` value, and the head slot grows by at
most one. -/
theorem vpool_alloc_slot_spec (ps : Nat) (p : VPool)
    (hf : p._first_unused_slot < 2 ^ 32) (hh : p._head_slot + 1 < 2 ^ 32) :
    (vpool_alloc_slot ps p).1 < 2 ^ 32 ∧
    (vpool_alloc_slot ps p).1 ≠ VPOOL_SLOT_INDEX_INVALID ∧
    ((vpool_alloc_slot ps p).2.1)._first_unused_slot < 2 ^ 32 ∧
    ((vpool_alloc_slot ps p).2.1)._head_slot ≤ p._head_slot + 1 := by
  by_cases h : p._first_unused_slot ≠ VPOOL_SLOT_INDEX_INVALID
  · rw [vpool_alloc_slot_pop ps p h]
    exact ⟨hf, h, Nat.mod_lt _ (by norm_num), Nat.le_succ _⟩
  · push_neg at h
    unfold vpool_alloc_slot
    rw [if_neg (by simp [h])]
    obtain ⟨h1, h2, -, -, -, -⟩ :=
      vpool__set_commited_slots_fields ps p ((p._head_slot + 1) % 2 ^ 32)
    refine ⟨?_, ?_, ?_, ?_⟩
    · show ((vpool__set_commited_slots ps p ((p._head_slot + 1) % 2 ^ 32)).2.1)._head_slot < 2 ^ 32
      rw [h1]; omega
    · show ((vpool__set_commited_slots ps p ((p._head_slot + 1) % 2 ^ 32)).2.1)._head_slot
        ≠ VPOOL_SLOT_INDEX_INVALID
      rw [h1, VPOOL_SLOT_INDEX_INVALID]; omega
    · show ((vpool__set_commited_slots ps p ((p._head_slot + 1) % 2 ^ 32)).2.1)._first_unused_slot
        < 2 ^ 32
      rw [h2, h, VPOOL_SLOT_INDEX_INVALID]; omega
    · show (((vpool__set_commited_slots ps p ((p._head_slot + 1) % 2 ^ 32)).2.1)._head_slot + 1)
        % 2 ^ 32 ≤ p._head_slot + 1
      rw [h1, Nat.mod_eq_of_lt hh]

/-- C5: the free list is LIFO. For every pool (with `uint32_t`-valued
free-list head and room for the head slot to be counted up twice):
allocate `A` then `B`, free `A` then free `B`; the next allocation returns
`B` and the one after returns `A`, and `head_slot` is unchanged by the two
frees and by the two reuse allocations. -/
theorem c5_free_list_lifo (ps : Nat) (p0 : VPool)
    (hf : p0._first_unused_slot < 2 ^ 32) (hh : p0._head_slot + 2 < 2 ^ 32) :
    let A := (vpool_alloc_slot ps p0).1
    let p1 := (vpool_alloc_slot ps p0).2.1
    let B := (vpool_alloc_slot ps p1).1
    let p2 := (vpool_alloc_slot ps p1).2.1
    let p3 := vpool_dealloc_slot p2 A
    let p4 := vpool_dealloc_slot p3 B
    let p5 := (vpool_alloc_slot ps p4).2.1
    let p6 := (vpool_alloc_slot ps p5).2.1
    (vpool_alloc_slot ps p4).1 = B ∧
    (vpool_alloc_slot ps p5).1 = A ∧
    p3._head_slot = p2._head_slot ∧
    p4._head_slot = p2._head_slot ∧
    p5._head_slot = p2._head_slot ∧
    p6._head_slot = p2._head_slot := by
  intro A p1 B p2 p3 p4 p5 p6
  obtain ⟨hAlt, hAne, hf1, hh1⟩ := vpool_alloc_slot_spec ps p0 hf (by omega)
  have hh1a : p1._head_slot + 1 < 2 ^ 32 := by
    show (vpool_alloc_slot ps p0).2.1._head_slot + 1 < 2 ^ 32
    omega
  obtain ⟨hBlt, hBne, hf2, hh2⟩ := vpool_alloc_slot_spec ps p1 hf1 hh1a
  have hp4f : p4._first_unused_slot = B := rfl
  have hp3f : p3._first_unused_slot = A := rfl
  have hp4m : p4.slotmem B = A := by
    show (if B = B then p3._first_unused_slot else p3.slotmem B) = A
    rw [if_pos rfl, hp3f]
  have hpopB := vpool_alloc_slot_pop ps p4 (by rw [hp4f]; exact hBne)
  have hx : (vpool_alloc_slot ps p4).1 = B := by
    rw [hpopB]; exact hp4f
  have hp5 : p5 = { p4 with
      _first_unused_slot := p4.slotmem p4._first_unused_slot % 2 ^ 32 } := by
    show (vpool_alloc_slot ps p4).2.1 = _
    rw [hpopB]
  have hp5f : p5._first_unused_slot = A := by
    rw [hp5]
    show p4.slotmem p4._first_unused_slot % 2 ^ 32 = A
    rw [hp4f, hp4m, Nat.mod_eq_of_lt hAlt]
  have hpopA := vpool_alloc_slot_pop ps p5 (by rw [hp5f]; exact hAne)
  have hy : (vpool_alloc_slot ps p5).1 = A := by
    rw [hpopA]; exact hp5f
  have h3 : p3._head_slot = p2._head_slot := rfl
  have h4 : p4._head_slot = p2._head_slot := rfl
  have h5 : p5._head_slot = p2._head_slot := by rw [hp5]; exact h4
  have h6 : p6._head_slot = p2._head_slot := by
    show ((vpool_alloc_slot ps p5).2.1)._head_slot = p2._head_slot
    rw [hpopA]
    exact h5
  exact ⟨hx, hy, h3, h4, h5, h6⟩

/-- C5, witness: the LIFO theorem applied to a fresh 100-slot pool of
64-byte slots at page size 4096 (the first two allocations come off the
head; the reuse allocations then return them in LIFO order). -/
theorem c5_free_list_lifo_witness :
    ((vpool_init 1 100 64)._first_unused_slot < 2 ^ 32) ∧
    ((vpool_init 1 100 64)._head_slot + 2 < 2 ^ 32) ∧
    (let A := (vpool_alloc_slot 4096 (vpool_init 1 100 64)).1
     let p1 := (vpool_alloc_slot 4096 (vpool_init 1 100 64)).2.1
     let B := (vpool_alloc_slot 4096 p1).1
     let p2 := (vpool_alloc_slot 4096 p1).2.1
     let p3 := vpool_dealloc_slot p2 A
     let p4 := vpool_dealloc_slot p3 B
     let p5 := (vpool_alloc_slot 4096 p4).2.1
     let p6 := (vpool_alloc_slot 4096 p5).2.1
     (vpool_alloc_slot 4096 p4).1 = B ∧
     (vpool_alloc_slot 4096 p5).1 = A ∧
     p3._head_slot = p2._head_slot ∧
     p4._head_slot = p2._head_slot ∧
     p5._head_slot = p2._head_slot ∧
     p6._head_slot = p2._head_slot) :=
  ⟨by decide, by decide, c5_free_list_lifo 4096 (vpool_init 1 100 64) (by decide) (by decide)⟩

/-- C6, evaluation at the failing inputs. First: a fresh one-slot pool
with page-sized slots (`total_slots = 1`, `slot_size = 4096`): on the very
first allocation (`head_slot = 0 < total_slots`) the commit helper
`vpool__set_commited_slots(pool, 1)` hits its `commited_slots >=
_total_slots` assert and commits nothing, yet `vpool_alloc_slot` (which
never checks that result) still returns slot 0 and bumps `head_slot` — so
"for every `head_slot < total_slots` it succeeds" fails. Second: a pool
already at `head_slot = total_slots = 2` (64-byte slots, 128 bytes
committed): the extra slot rounds to the already-committed page, the
helper reports no failure, and the allocation "succeeds" with the
out-of-range slot 2 — so "fails exactly when `head_slot == total_slots`"
fails too. -/
theorem c6_alloc_slot_exhaustion_eval :
    (vpool_alloc_slot 4096 (vpool_init 1 1 4096)).1 = 0 ∧
    (vpool_alloc_slot 4096 (vpool_init 1 1 4096)).2.2.1 = false ∧
    ((vpool_alloc_slot 4096 (vpool_init 1 1 4096)).2.1)._head_slot = 1 ∧
    ((vpool_alloc_slot 4096 (vpool_init 1 1 4096)).2.1)._commited_bytes = 0 ∧
    (vpool_alloc_slot 4096 (vpool_init 1 1 4096)).2.2.2 = [] ∧
    (vpool_alloc_slot 4096
      ⟨1, 2, 64, 128, 2, VPOOL_SLOT_INDEX_INVALID, fun _ => 0⟩).1 = 2 ∧
    (vpool_alloc_slot 4096
      ⟨1, 2, 64, 128, 2, VPOOL_SLOT_INDEX_INVALID, fun _ => 0⟩).2.2.1 = true ∧
    ((vpool_alloc_slot 4096
      ⟨1, 2, 64, 128, 2, VPOOL_SLOT_INDEX_INVALID, fun _ => 0⟩).2.1)._head_slot = 3 := by
  decide

/-- C7, evaluation at the failing input: a pool with `head_slot = 2`,
`first_unused_slot = 1` and 128 bytes committed. `vpool_clear_and_decommit`
(which is exactly `vpool__set_commited_slots(pool, 0)`) decommits the
committed page and zeroes `_commited_bytes`, keeps the base pointer and
total slot count (no release), but does NOT reset `head_slot` to 0 nor
`first_unused_slot` to `INVALID` as the claim states — both keep their old
values, leaving the free list dangling into decommitted memory. -/
theorem c7_clear_and_decommit_eval :
    ((vpool_clear_and_decommit 4096 ⟨1, 100, 64, 128, 2, 1, fun _ => 0⟩).2.1)._commited_bytes
      = 0 ∧
    ((vpool_clear_and_decommit 4096 ⟨1, 100, 64, 128, 2, 1, fun _ => 0⟩).2.1)._buf = 1 ∧
    ((vpool_clear_and_decommit 4096 ⟨1, 100, 64, 128, 2, 1, fun _ => 0⟩).2.1)._total_slots
      = 100 ∧
    (vpool_clear_and_decommit 4096 ⟨1, 100, 64, 128, 2, 1, fun _ => 0⟩).2.2
      = [VMemCall.decommit 0 4096] ∧
    ((vpool_clear_and_decommit 4096 ⟨1, 100, 64, 128, 2, 1, fun _ => 0⟩).2.1)._head_slot
      = 2 ∧
    ¬(((vpool_clear_and_decommit 4096 ⟨1, 100, 64, 128, 2, 1, fun _ => 0⟩).2.1)._head_slot
      = 0) ∧
    ((vpool_clear_and_decommit 4096 ⟨1, 100, 64, 128, 2, 1, fun _ => 0⟩).2.1)._first_unused_slot
      = 1 ∧
    ¬(((vpool_clear_and_decommit 4096 ⟨1, 100, 64, 128, 2, 1, fun _ => 0⟩).2.1)._first_unused_slot
      = VPOOL_SLOT_INDEX_INVALID) := by
  decide

/-- C8, evaluation at the failing input: a `VArray` of 4-byte elements
(`T = float/int`) with `len = 1024` over an arena with 1024 bytes
committed. `VArray::put` passes the raw element count `len + 1 = 1025` to
`vmem_arena_set_commited` — not `1025 * sizeof(T) = 4100` bytes — so the
OS-committed bytes stay at one page (4096), which no longer covers the
4100 bytes that 1025 4-byte elements occupy. The sample `VPool::put` does
the same with `head_slot + 1`. -/
theorem c8_put_byte_count_eval :
    ((VArray.put 4096 (⟨⟨1, 32768, 1024⟩, 1024, fun _ => 0⟩ : VArray Nat) 7).2.1).arena.commited
      = 1025 ∧
    (VArray.put 4096 (⟨⟨1, 32768, 1024⟩, 1024, fun _ => 0⟩ : VArray Nat) 7).2.2.2 = [] ∧
    ¬((1024 + 1) = (1024 + 1) * 4) ∧
    vmem_arena_calc_bytes_used_for_size 4096 1025 = 4096 ∧
    4096 < (1024 + 1) * 4 ∧
    ((Samples.VPool.put 4096
        (⟨⟨1, 32768, 1024⟩, 1024, Samples.VPool.INVALID_INDEX, fun _ => 0, fun _ => 0⟩
          : Samples.VPool Nat) 7).2.1).arena.commited = 1025 ∧
    ((Samples.VPool.put 4096
        (⟨⟨1, 32768, 1024⟩, 1024, Samples.VPool.INVALID_INDEX, fun _ => 0, fun _ => 0⟩
          : Samples.VPool Nat) 7).2.1).head_slot = 1025 := by
  decide

/-- C9, evaluation at the failing input: a `VArray` with `len = 2` whose
backing memory holds `i + 10` at element `i`. The claim's bounds predicate
is `index < used_length`, so `get 2` must return the default; but the
source's `is_in_bounds` uses `index <= len`, so `get 2` returns the stale
memory word 12 instead of the default 0. Indices `-1` and `3` behave as
claimed, and in-bounds reads return the stored element; the sample
`VPool::is_in_bounds` has the same `<=` comparison. -/
theorem c9_get_bounds_eval :
    VArray.is_in_bounds (⟨⟨1, 8192, 2⟩, 2, fun i => i + 10⟩ : VArray Nat) 2 = true ∧
    VArray.get (⟨⟨1, 8192, 2⟩, 2, fun i => i + 10⟩ : VArray Nat) 2 = 12 ∧
    ¬(VArray.get (⟨⟨1, 8192, 2⟩, 2, fun i => i + 10⟩ : VArray Nat) 2 = 0) ∧
    ¬((2 : Int) < ((⟨⟨1, 8192, 2⟩, 2, fun i => i + 10⟩ : VArray Nat).len : Int)) ∧
    VArray.get (⟨⟨1, 8192, 2⟩, 2, fun i => i + 10⟩ : VArray Nat) 0 = 10 ∧
    VArray.get (⟨⟨1, 8192, 2⟩, 2, fun i => i + 10⟩ : VArray Nat) 1 = 11 ∧
    VArray.get (⟨⟨1, 8192, 2⟩, 2, fun i => i + 10⟩ : VArray Nat) (-1) = 0 ∧
    VArray.get (⟨⟨1, 8192, 2⟩, 2, fun i => i + 10⟩ : VArray Nat) 3 = 0 ∧
    Samples.VPool.is_in_bounds
      (⟨⟨1, 8192, 2⟩, 2, Samples.VPool.INVALID_INDEX, fun i => i + 10, fun _ => 0⟩
        : Samples.VPool Nat) 2 = true ∧
    Samples.VPool.get
      (⟨⟨1, 8192, 2⟩, 2, Samples.VPool.INVALID_INDEX, fun i => i + 10, fun _ => 0⟩
        : Samples.VPool Nat) 2 = 12 := by
  decide

/-- C10: before `vmem_init` runs, the cached globals are their static
zero initializers, so `vmem_get_page_size()` and
`vmem_get_allocation_granularity()` return 0, and arena page rounding
`vmem_arena_calc_bytes_used_for_size` collapses to 0 for every size (the
`vmem_align_forward` zero-alignment error path) — it is only meaningful
after `vmem_init` caches the queried values, which `vmem_get_page_size`
then returns. -/
theorem c10_page_size_zero_before_init :
    vmem_get_page_size vmem__g_startup = 0 ∧
    vmem_get_allocation_granularity vmem__g_startup = 0 ∧
    (∀ s : Nat,
      vmem_arena_calc_bytes_used_for_size (vmem_get_page_size vmem__g_startup) s = 0) ∧
    (∀ qps qag : Nat,
      vmem_get_page_size (vmem_init qps qag vmem__g_startup) = qps ∧
      vmem_get_allocation_granularity (vmem_init qps qag vmem__g_startup) = qag) :=
  ⟨rfl, rfl, fun _ => rfl, fun _ _ => ⟨rfl, rfl⟩⟩
